import Mathlib

/-
Verification of the nx release core against its specification.

The development shallowly embeds the TypeScript source:
promises become explicit result values, subprocess invocations are recorded
as events against an abstract execution environment, and JavaScript
truthiness of optional values is modelled explicitly.
-/

namespace NxRelease

/-- Outcome of a child-process `exec` call, as seen by its callback:
an optional error, the captured stdout and the captured stderr. -/
structure ExecOutcome where
  error : Option String
  stdout : String
  stderr : String

/-- Abstract execution environment: maps a command line to the outcome
its subprocess would produce. -/
structure ExecEnv where
  exec : String → ExecOutcome

/-- A recorded subprocess invocation, tagged by the call site in the source. -/
inductive SubprocessCall where
  | stagedChangesProbe (command : String)
  | addSubprocess (command : String)
  | commitSubprocess (command : String)
  | tagSubprocess (command : String)
deriving DecidableEq

/-- Whether a recorded call is the `git commit` subprocess. -/
def SubprocessCall.isCommit : SubprocessCall → Bool
  | .commitSubprocess _ => true
  | _ => false

/-- Settlement of the promise returned by one of the git helpers:
resolved with trimmed stdout, resolved with `undefined` (a bare `return`),
or rejected. -/
inductive GitOpResult where
  | resolved (stdout : String)
  | returnedUndefined
  | rejected (message : String)
deriving DecidableEq

/-- Full observable behaviour of one git helper invocation: the messages
passed to `logFn`, the subprocess calls issued (in order), and the promise
settlement. -/
structure GitOpRun where
  logs : List String
  calls : List SubprocessCall
  result : GitOpResult
deriving DecidableEq

/-- The shared promise-executor pattern of the git helpers: reject on an
exec error, reject on non-empty stderr, otherwise resolve `stdout.trim()`. -/
def execToResult (out : ExecOutcome) : GitOpResult :=
  match out.error with
  | some e => GitOpResult.rejected e
  | none =>
    if out.stderr = "" then GitOpResult.resolved out.stdout.trim
    else GitOpResult.rejected out.stderr

/-- JavaScript `value || fallback` on an optional string: `undefined` and
the empty string both select the fallback. -/
def jsOrStr (v : Option String) (d : String) : String :=
  match v with
  | some s => if s = "" then d else s
  | none => d

/-- Embedding of `gitAddChanges` (git add helper): builds
`git add <files>`, logs it when verbose, short-circuits on dry run, and
otherwise execs the command. -/
def gitAddChanges (affectedFiles : List String) (dryRun verbose : Bool)
    (env : ExecEnv) : GitOpRun :=
  let affectedFilesStr := String.intercalate " " affectedFiles
  let command := ("git add " ++ affectedFilesStr).trim
  let verboseLogs :=
    if verbose then ["\nStaging files in git with the following command:", command]
    else []
  if dryRun then
    { logs := verboseLogs ++ ["\nSkipping git add because the --dry-run flag was passed."]
      calls := []
      result := GitOpResult.returnedUndefined }
  else
    { logs := verboseLogs
      calls := [SubprocessCall.addSubprocess command]
      result := execToResult (env.exec command) }

/-- The `gitOptions` argument of `gitCommitChanges`. The `amend` field is
the JavaScript truthiness of the optional boolean. -/
structure GitCommitGitOptions where
  message : Option String
  amend : Bool
  gitArgs : Option (List String)

/-- The staged-changes probe command used by `gitCommitChanges`; the
probe resolving with an error means there are staged changes. -/
def stagedChangesProbeCommand : String := "git diff-index --quiet HEAD"

/-- Embedding of `gitCommitChanges`: builds the commit command
(`--amend --no-edit` or `-m "<message>"` prepended to the user args),
logs when verbose, short-circuits on dry run, probes for staged changes,
skips with a notice when nothing is staged, and otherwise execs the commit. -/
def gitCommitChanges (gitOptions : GitCommitGitOptions) (dryRun verbose : Bool)
    (env : ExecEnv) : GitOpRun :=
  let message := jsOrStr gitOptions.message "chore: release"
  let baseArgs := gitOptions.gitArgs.getD []
  let args :=
    if gitOptions.amend then "--amend" :: "--no-edit" :: baseArgs
    else "-m" :: ("\"" ++ message ++ "\"") :: baseArgs
  let commitCommand := ("git commit " ++ String.intercalate " " args).trim
  let verboseLogs :=
    if verbose then ["\nCommitting files with the following command:", commitCommand]
    else []
  if dryRun then
    { logs := verboseLogs ++ ["\nSkipping git commit because the --dry-run flag was passed."]
      calls := []
      result := GitOpResult.returnedUndefined }
  else
    let probeOutcome := env.exec stagedChangesProbeCommand
    let hasStagedFiles := probeOutcome.error.isSome
    if hasStagedFiles then
      { logs := verboseLogs
        calls := [SubprocessCall.stagedChangesProbe stagedChangesProbeCommand,
                  SubprocessCall.commitSubprocess commitCommand]
        result := execToResult (env.exec commitCommand) }
    else
      { logs := verboseLogs ++ ["\nNo staged files found. Skipping commit."]
        calls := [SubprocessCall.stagedChangesProbe stagedChangesProbeCommand]
        result := GitOpResult.returnedUndefined }

/-- The `gitOptions` argument of `gitTag`. -/
structure GitTagGitOptions where
  tag : String
  gitArgs : Option (List String)

/-- Embedding of `gitTag`: builds `git tag <tag> -m <tag> <args>`, logs
when verbose, short-circuits on dry run, and otherwise execs the command. -/
def gitTag (gitOptions : GitTagGitOptions) (dryRun verbose : Bool)
    (env : ExecEnv) : GitOpRun :=
  let tag := gitOptions.tag
  let args := gitOptions.gitArgs.getD []
  let command := ("git tag " ++ tag ++ " -m " ++ tag ++ " " ++ String.intercalate " " args).trim
  let verboseLogs :=
    if verbose then ["\nTagging commit with the following command:", command]
    else []
  if dryRun then
    { logs := verboseLogs ++ ["\nSkipping git tag because the --dry-run flag was passed."]
      calls := []
      result := GitOpResult.returnedUndefined }
  else
    { logs := verboseLogs
      calls := [SubprocessCall.tagSubprocess command]
      result := execToResult (env.exec command) }

/-- C2: in a non-dry-run invocation of `gitCommitChanges`, if the
staged-changes probe reports nothing staged (the probe exec yields no
error), then no commit subprocess is invoked, the only subprocess call is
the probe itself, a notice is logged, and the promise resolves with
`undefined`, so no empty commit is ever produced. -/
theorem claim_C2_commit_skipped_when_nothing_staged
    (gitOptions : GitCommitGitOptions) (verbose : Bool) (env : ExecEnv)
    (hprobe : (env.exec stagedChangesProbeCommand).error = none) :
    (∀ c, c ∈ (gitCommitChanges gitOptions false verbose env).calls → c.isCommit = false) ∧
    (gitCommitChanges gitOptions false verbose env).calls
      = [SubprocessCall.stagedChangesProbe stagedChangesProbeCommand] ∧
    "\nNo staged files found. Skipping commit."
      ∈ (gitCommitChanges gitOptions false verbose env).logs ∧
    (gitCommitChanges gitOptions false verbose env).result = GitOpResult.returnedUndefined := by
  simp only [gitCommitChanges, hprobe, Option.isSome_none, Bool.false_eq_true, if_false,
    if_neg (Bool.false_ne_true)]
  refine ⟨?_, trivial, ?_, trivial⟩
  · intro c hc
    simp only [List.mem_singleton] at hc
    subst hc
    rfl
  · simp

/-- Witness for C2 at a concrete input: no message override, no amend, no
extra args, non-verbose, and an environment whose probe reports a clean
index. -/
theorem claim_C2_witness :
    (∀ c, c ∈ (gitCommitChanges ⟨none, false, none⟩ false false
        ⟨fun _ => ⟨none, "", ""⟩⟩).calls → c.isCommit = false) ∧
    (gitCommitChanges ⟨none, false, none⟩ false false
        ⟨fun _ => ⟨none, "", ""⟩⟩).calls
      = [SubprocessCall.stagedChangesProbe stagedChangesProbeCommand] ∧
    "\nNo staged files found. Skipping commit."
      ∈ (gitCommitChanges ⟨none, false, none⟩ false false
        ⟨fun _ => ⟨none, "", ""⟩⟩).logs ∧
    (gitCommitChanges ⟨none, false, none⟩ false false
        ⟨fun _ => ⟨none, "", ""⟩⟩).result = GitOpResult.returnedUndefined :=
  claim_C2_commit_skipped_when_nothing_staged ⟨none, false, none⟩ false
    ⟨fun _ => ⟨none, "", ""⟩⟩ rfl

/-- C3 counterexample: `gitTag` invoked with the dry-run flag set but
verbose off does NOT log the command that would run; it logs only the
skip notice. This refutes the claim that every dry-run invocation logs
the command. -/
theorem claim_C3_counterexample :
    (gitTag ⟨"v1.0.0", none⟩ true false ⟨fun _ => ⟨none, "", ""⟩⟩).calls = [] ∧
    (gitTag ⟨"v1.0.0", none⟩ true false ⟨fun _ => ⟨none, "", ""⟩⟩).result
      = GitOpResult.returnedUndefined ∧
    "git tag v1.0.0 -m v1.0.0"
      ∉ (gitTag ⟨"v1.0.0", none⟩ true false ⟨fun _ => ⟨none, "", ""⟩⟩).logs := by
  decide

/-- C3 (amended): every git side-effect operation (add, commit, tag)
invoked with the dry-run flag set invokes no subprocess, returns
`undefined`, and logs a notice that the operation is skipped; the command
that would run is additionally logged exactly when verbose is set. -/
theorem claim_C3_dry_run_amended
    (affectedFiles : List String) (commitOptions : GitCommitGitOptions)
    (tagOptions : GitTagGitOptions) (verbose : Bool) (env : ExecEnv) :
    ((gitAddChanges affectedFiles true verbose env).calls = [] ∧
     (gitAddChanges affectedFiles true verbose env).result = GitOpResult.returnedUndefined ∧
     "\nSkipping git add because the --dry-run flag was passed."
       ∈ (gitAddChanges affectedFiles true verbose env).logs ∧
     (verbose = true →
       ("git add " ++ String.intercalate " " affectedFiles).trim
         ∈ (gitAddChanges affectedFiles true verbose env).logs)) ∧
    ((gitCommitChanges commitOptions true verbose env).calls = [] ∧
     (gitCommitChanges commitOptions true verbose env).result = GitOpResult.returnedUndefined ∧
     "\nSkipping git commit because the --dry-run flag was passed."
       ∈ (gitCommitChanges commitOptions true verbose env).logs) ∧
    ((gitTag tagOptions true verbose env).calls = [] ∧
     (gitTag tagOptions true verbose env).result = GitOpResult.returnedUndefined ∧
     "\nSkipping git tag because the --dry-run flag was passed."
       ∈ (gitTag tagOptions true verbose env).logs ∧
     (verbose = true →
       ("git tag " ++ tagOptions.tag ++ " -m " ++ tagOptions.tag ++ " "
          ++ String.intercalate " " (tagOptions.gitArgs.getD [])).trim
         ∈ (gitTag tagOptions true verbose env).logs)) := by
  cases verbose <;>
    simp [gitAddChanges, gitCommitChanges, gitTag]

/-- Witness for C3 (amended) at a concrete verbose dry-run input. -/
theorem claim_C3_witness :
    ((gitAddChanges ["package.json"] true true ⟨fun _ => ⟨none, "", ""⟩⟩).calls = [] ∧
     (gitAddChanges ["package.json"] true true ⟨fun _ => ⟨none, "", ""⟩⟩).result
       = GitOpResult.returnedUndefined ∧
     "\nSkipping git add because the --dry-run flag was passed."
       ∈ (gitAddChanges ["package.json"] true true ⟨fun _ => ⟨none, "", ""⟩⟩).logs ∧
     (true = true →
       ("git add " ++ String.intercalate " " ["package.json"]).trim
         ∈ (gitAddChanges ["package.json"] true true ⟨fun _ => ⟨none, "", ""⟩⟩).logs)) ∧
    ((gitCommitChanges ⟨some "chore: v1", false, none⟩ true true
        ⟨fun _ => ⟨none, "", ""⟩⟩).calls = [] ∧
     (gitCommitChanges ⟨some "chore: v1", false, none⟩ true true
        ⟨fun _ => ⟨none, "", ""⟩⟩).result = GitOpResult.returnedUndefined ∧
     "\nSkipping git commit because the --dry-run flag was passed."
       ∈ (gitCommitChanges ⟨some "chore: v1", false, none⟩ true true
        ⟨fun _ => ⟨none, "", ""⟩⟩).logs) ∧
    ((gitTag ⟨"v1.0.0", none⟩ true true ⟨fun _ => ⟨none, "", ""⟩⟩).calls = [] ∧
     (gitTag ⟨"v1.0.0", none⟩ true true ⟨fun _ => ⟨none, "", ""⟩⟩).result
       = GitOpResult.returnedUndefined ∧
     "\nSkipping git tag because the --dry-run flag was passed."
       ∈ (gitTag ⟨"v1.0.0", none⟩ true true ⟨fun _ => ⟨none, "", ""⟩⟩).logs ∧
     (true = true →
       ("git tag " ++ "v1.0.0" ++ " -m " ++ "v1.0.0" ++ " "
          ++ String.intercalate " " ((none : Option (List String)).getD [])).trim
         ∈ (gitTag ⟨"v1.0.0", none⟩ true true ⟨fun _ => ⟨none, "", ""⟩⟩).logs)) :=
  claim_C3_dry_run_amended ["package.json"] ⟨some "chore: v1", false, none⟩
    ⟨"v1.0.0", none⟩ true ⟨fun _ => ⟨none, "", ""⟩⟩

/-- A workspace project as consumed by the release-group resolver: its
name and the names of its declared targets. -/
structure ProjectNode where
  name : String
  targets : List String
deriving DecidableEq

/-- The project graph restricted to what the resolver reads: the node
list, in object-key insertion order. -/
structure ProjectGraph where
  nodes : List ProjectNode
deriving DecidableEq

/-- A group's project selector: the wildcard string or an explicit
ordered list of project names. -/
inductive ProjectsSelector where
  | wildcard
  | explicitList (projects : List String)
deriving DecidableEq

/-- User-supplied `version` configuration of a release group; every field
optional. Generator options are an opaque key-value bag (nested objects
are encoded as dotted-path keys, which the resolver never inspects). -/
structure GroupVersionConfig where
  generator : Option String
  generatorOptions : Option (List (String × String))
  specifierSource : Option String
deriving DecidableEq

/-- User-supplied configuration of one release group. -/
structure GroupConfig where
  projects : ProjectsSelector
  version : Option GroupVersionConfig
deriving DecidableEq

/-- Fully-defaulted `version` configuration of a resolved release group. -/
structure ResolvedVersion where
  generator : String
  generatorOptions : List (String × String)
  specifierSource : String
deriving DecidableEq

/-- A resolved release group. -/
structure ReleaseGroup where
  name : String
  projects : List String
  version : ResolvedVersion
deriving DecidableEq

/-- Structured configuration errors of the resolver, with their data
payloads. -/
inductive CreateReleaseGroupsError where
  | PROJECT_MATCHES_MULTIPLE_GROUPS (project : String)
  | RELEASE_GROUP_MATCHES_NO_PROJECTS (releaseGroupName : String)
  | PROJECTS_MISSING_TARGET (projects : List String) (targetName : String)
deriving DecidableEq

/-- Result value of the resolver: an optional error plus the resolved
groups (empty whenever an error is present). -/
structure CreateReleaseGroupsResult where
  error : Option CreateReleaseGroupsError
  releaseGroups : List ReleaseGroup
deriving DecidableEq

/-- Name of the synthetic catch-all release group. -/
def CATCH_ALL_RELEASE_GROUP : String := "__default__"

/-- Canonical default version generator identifier. -/
def DEFAULT_GENERATOR : String := "@nx/js:release-version"

/-- Resolve a selector against the graph: the wildcard matches every
project in insertion order; an explicit list keeps, in list order, the
names that exist in the graph (unknown identifiers are ignored). -/
def resolveSelector (graph : ProjectGraph) : ProjectsSelector → List String
  | ProjectsSelector.wildcard => graph.nodes.map (fun n => n.name)
  | ProjectsSelector.explicitList ps =>
    ps.filter (fun p => decide (∃ n ∈ graph.nodes, n.name = p))

/-- Whether the named project declares the named target. -/
def projectHasTarget (graph : ProjectGraph) (project targetName : String) : Bool :=
  graph.nodes.any (fun n => decide (n.name = project ∧ targetName ∈ n.targets))

/-- Per-field defaulting of a group's `version` configuration: missing
`generator` becomes the canonical generator, missing `generatorOptions`
becomes the empty bag, missing `specifierSource` becomes `prompt`. -/
def applyVersionDefaults (v : Option GroupVersionConfig) : ResolvedVersion :=
  { generator := (v.bind (fun c => c.generator)).getD DEFAULT_GENERATOR
    generatorOptions := (v.bind (fun c => c.generatorOptions)).getD []
    specifierSource := (v.bind (fun c => c.specifierSource)).getD "prompt" }

/-- The effective group configuration: an empty user configuration is
replaced by the synthetic catch-all group holding the wildcard selector. -/
def effectiveConfigs (configs : List (String × GroupConfig)) :
    List (String × GroupConfig) :=
  if configs.isEmpty then
    [(CATCH_ALL_RELEASE_GROUP, ⟨ProjectsSelector.wildcard, none⟩)]
  else configs

/-- Each effective group paired with its resolved member list. -/
def resolvedConfigs (graph : ProjectGraph) (configs : List (String × GroupConfig)) :
    List (String × GroupConfig × List String) :=
  (effectiveConfigs configs).map (fun nc => (nc.1, nc.2, resolveSelector graph nc.2.projects))

/-- All matched projects across the effective groups, concatenated in
configuration iteration order. -/
def allMatchedProjects (graph : ProjectGraph) (configs : List (String × GroupConfig)) :
    List String :=
  ((resolvedConfigs graph configs).map (fun x => x.2.2)).flatten

/-- The matched projects that lack the required target, in match order. -/
def missingTargetProjects (graph : ProjectGraph) (configs : List (String × GroupConfig))
    (targetName : String) : List String :=
  (allMatchedProjects graph configs).filter (fun p => ! projectHasTarget graph p targetName)

/-- Left-to-right scan for the first element already seen: this is the
first project found to resolve into more than one group when applied to
the concatenated member lists in configuration iteration order. -/
def firstDuplicate (seen : List String) : List String → Option String
  | [] => none
  | p :: rest => if p ∈ seen then some p else firstDuplicate (p :: seen) rest

/-- Modelled from the spec: `createReleaseGroups` — its implementation
file (`config/create-release-groups.ts`) is absent from the excerpt; only
its test suite is present. The model follows the specified algorithm
(catch-all synthesis for an empty configuration, selector resolution,
then the overlap, emptiness and capability checks in that priority order,
then per-field version defaults) and reproduces every snapshot of the
test suite. Where the spec text and the test suite disagree — the suite
requires a `PROJECTS_MISSING_TARGET` error for an empty configuration
whenever any project lacks the required target, never a silent
exclusion — the test suite is followed. -/
def createReleaseGroups (graph : ProjectGraph) (configs : List (String × GroupConfig))
    (requiredTargetName : String) : CreateReleaseGroupsResult :=
  match firstDuplicate [] (allMatchedProjects graph configs) with
  | some p => ⟨some (CreateReleaseGroupsError.PROJECT_MATCHES_MULTIPLE_GROUPS p), []⟩
  | none =>
    match (resolvedConfigs graph configs).find? (fun x => x.2.2.isEmpty) with
    | some x => ⟨some (CreateReleaseGroupsError.RELEASE_GROUP_MATCHES_NO_PROJECTS x.1), []⟩
    | none =>
      if (missingTargetProjects graph configs requiredTargetName).isEmpty then
        ⟨none, (resolvedConfigs graph configs).map
          (fun x => ⟨x.1, x.2.2, applyVersionDefaults x.2.1.version⟩)⟩
      else
        ⟨some (CreateReleaseGroupsError.PROJECTS_MISSING_TARGET
          (missingTargetProjects graph configs requiredTargetName) requiredTargetName), []⟩

/-- The three-project graph used throughout the resolver's test suite. -/
def graphABC : ProjectGraph :=
  ⟨[⟨"lib-a", ["nx-release-publish"]⟩,
    ⟨"lib-b", ["nx-release-publish"]⟩,
    ⟨"lib-c", ["nx-release-publish"]⟩]⟩

/-- Model validation against the suite: no user groups gives the
catch-all group with all three projects and full defaults. -/
theorem createReleaseGroups_suite_catch_all :
    createReleaseGroups graphABC [] "nx-release-publish" =
      ⟨none, [⟨"__default__", ["lib-a", "lib-b", "lib-c"],
        ⟨"@nx/js:release-version", [], "prompt"⟩⟩]⟩ := by
  decide

/-- Model validation against the suite: projects not matched by any user
group are ignored. -/
theorem createReleaseGroups_suite_ignores_unmatched :
    createReleaseGroups graphABC
      [("group-1", ⟨ProjectsSelector.explicitList ["lib-a", "lib-c"], none⟩)]
      "nx-release-publish" =
      ⟨none, [⟨"group-1", ["lib-a", "lib-c"],
        ⟨"@nx/js:release-version", [], "prompt"⟩⟩]⟩ := by
  decide

/-- Model validation against the suite: user overrides of the `version`
configuration are kept and the remaining fields are defaulted per field. -/
theorem createReleaseGroups_suite_version_overrides :
    createReleaseGroups graphABC
      [("group-1", ⟨ProjectsSelector.explicitList ["lib-a"],
          some ⟨some "@custom/generator", some [("optionsOverride", "something")], none⟩⟩),
       ("group-2", ⟨ProjectsSelector.explicitList ["lib-b"],
          some ⟨some "@custom/generator-alternative", none, none⟩⟩),
       ("group-3", ⟨ProjectsSelector.explicitList ["lib-c"],
          some ⟨none,
            some [("currentVersionResolver", "git-tag"),
                  ("currentVersionResolverMetadata.tagVersionPfx", "v")],
            some "conventional-commits"⟩⟩)]
      "nx-release-publish" =
      ⟨none,
       [⟨"group-1", ["lib-a"],
          ⟨"@custom/generator", [("optionsOverride", "something")], "prompt"⟩⟩,
        ⟨"group-2", ["lib-b"],
          ⟨"@custom/generator-alternative", [], "prompt"⟩⟩,
        ⟨"group-3", ["lib-c"],
          ⟨"@nx/js:release-version",
           [("currentVersionResolver", "git-tag"),
            ("currentVersionResolverMetadata.tagVersionPfx", "v")],
           "conventional-commits"⟩⟩]⟩ := by
  decide

/-- Model validation against the suite: a group whose explicit list
matches no live project yields the emptiness error. -/
theorem createReleaseGroups_suite_no_projects :
    createReleaseGroups graphABC
      [("group-1", ⟨ProjectsSelector.explicitList ["lib-does-not-exist"], none⟩)]
      "nx-release-publish" =
      ⟨some (CreateReleaseGroupsError.RELEASE_GROUP_MATCHES_NO_PROJECTS "group-1"), []⟩ := by
  decide

/-- Model validation against the suite: with an empty configuration and
an extra project lacking the required target, the resolver errors with
that project listed, exactly as the suite's snapshot demands. -/
theorem createReleaseGroups_suite_missing_target_catch_all :
    createReleaseGroups
      ⟨graphABC.nodes ++ [⟨"another-project-without-target", []⟩]⟩ []
      "nx-release-publish" =
      ⟨some (CreateReleaseGroupsError.PROJECTS_MISSING_TARGET
        ["another-project-without-target"] "nx-release-publish"), []⟩ := by
  decide

/-- The scan finds no duplicate in a duplicate-free list disjoint from
the seen accumulator. -/
theorem firstDuplicate_eq_none (l : List String) :
    ∀ seen, l.Nodup → (∀ x ∈ l, x ∉ seen) → firstDuplicate seen l = none := by
  induction l with
  | nil => intro seen _ _; rfl
  | cons p rest ih =>
    intro seen hnd hdisj
    have hp : p ∉ seen := hdisj p (by simp)
    have hnd' : rest.Nodup := (List.nodup_cons.mp hnd).2
    have hpd : p ∉ rest := (List.nodup_cons.mp hnd).1
    have hstep : firstDuplicate seen (p :: rest) = firstDuplicate (p :: seen) rest := by
      simp [firstDuplicate, hp]
    rw [hstep]
    refine ih (p :: seen) hnd' ?_
    intro x hx hmem
    rcases List.mem_cons.mp hmem with h | h
    · exact hpd (h ▸ hx)
    · exact hdisj x (List.mem_cons_of_mem _ hx) h

/-- A found duplicate occurs at least twice across accumulator and list. -/
theorem firstDuplicate_count (l : List String) :
    ∀ seen p, firstDuplicate seen l = some p → 2 ≤ (seen ++ l).count p := by
  induction l with
  | nil => intro seen p h; simp [firstDuplicate] at h
  | cons q rest ih =>
    intro seen p h
    by_cases hq : q ∈ seen
    · rw [firstDuplicate, if_pos hq] at h
      obtain rfl : q = p := by injection h
      have h1 : 0 < seen.count q := List.count_pos_iff.mpr hq
      have h2 : (q :: rest).count q = rest.count q + 1 := List.count_cons_self q rest
      rw [List.count_append, h2]
      omega
    · rw [firstDuplicate, if_neg hq] at h
      have hrec := ih (q :: seen) p h
      have hperm : (seen ++ q :: rest).Perm ((q :: seen) ++ rest) := List.perm_middle
      rw [hperm.count_eq]
      exact hrec

/-- Shape of the resolved configuration for an empty user configuration:
exactly the synthetic catch-all group matching every project. -/
theorem resolvedConfigs_empty (graph : ProjectGraph) :
    resolvedConfigs graph [] =
      [(CATCH_ALL_RELEASE_GROUP, ⟨ProjectsSelector.wildcard, none⟩,
        graph.nodes.map (fun n => n.name))] := by
  simp [resolvedConfigs, effectiveConfigs, resolveSelector]

/-- With an empty user configuration, the matched projects are exactly
the graph's projects, in insertion order. -/
theorem allMatchedProjects_empty (graph : ProjectGraph) :
    allMatchedProjects graph [] = graph.nodes.map (fun n => n.name) := by
  simp [allMatchedProjects, resolvedConfigs_empty]

/-- With an empty user configuration and a well-formed graph, the
resolver reduces to the capability check over all projects. -/
theorem createReleaseGroups_empty_config (graph : ProjectGraph) (targetName : String)
    (hnd : (graph.nodes.map (fun n => n.name)).Nodup)
    (hne : graph.nodes ≠ []) :
    createReleaseGroups graph [] targetName =
      if (missingTargetProjects graph [] targetName).isEmpty then
        ⟨none, [⟨CATCH_ALL_RELEASE_GROUP, graph.nodes.map (fun n => n.name),
          applyVersionDefaults none⟩]⟩
      else
        ⟨some (CreateReleaseGroupsError.PROJECTS_MISSING_TARGET
          (missingTargetProjects graph [] targetName) targetName), []⟩ := by
  have hdup : firstDuplicate [] (allMatchedProjects graph []) = none := by
    rw [allMatchedProjects_empty]
    exact firstDuplicate_eq_none _ [] hnd (fun x _ hx => by simp at hx)
  have hnames : (graph.nodes.map (fun n => n.name)).isEmpty = false := by
    cases h : graph.nodes with
    | nil => exact absurd h hne
    | cons a l => simp [h]
  have hfind : (resolvedConfigs graph []).find? (fun x => x.2.2.isEmpty) = none := by
    rw [resolvedConfigs_empty]
    simp [List.find?, hnames]
  unfold createReleaseGroups
  rw [hdup, hfind]
  rw [resolvedConfigs_empty]
  rfl

/-- C1 counterexample input: one project with the required target, one
without. -/
def graphC1 : ProjectGraph :=
  ⟨[⟨"lib-a", ["nx-release-publish"]⟩, ⟨"proj-x", []⟩]⟩

/-- C1 counterexample: with an empty group configuration against
`graphC1`, at least one project overall has the required capability, yet
the resolver does NOT silently exclude the project lacking it: it returns
the `PROJECTS_MISSING_TARGET` error and no catch-all group at all,
refuting the claimed silent exclusion. -/
theorem claim_C1_counterexample :
    (∃ n ∈ graphC1.nodes, "nx-release-publish" ∈ n.targets) ∧
    (createReleaseGroups graphC1 [] "nx-release-publish").error
      = some (CreateReleaseGroupsError.PROJECTS_MISSING_TARGET ["proj-x"] "nx-release-publish") ∧
    (createReleaseGroups graphC1 [] "nx-release-publish").releaseGroups = [] := by
  decide

/-- C1 (amended): for the resolver called with an empty group
configuration, the synthetic catch-all group matches every project, and
whenever any matched project lacks the required capability the resolver
fails with `PROJECTS_MISSING_TARGET` listing exactly the lacking projects
in graph order — regardless of whether other projects have the
capability; no project is ever silently excluded. -/
theorem claim_C1_empty_config_missing_target
    (graph : ProjectGraph) (targetName : String)
    (hnd : (graph.nodes.map (fun n => n.name)).Nodup)
    (hmiss : missingTargetProjects graph [] targetName ≠ []) :
    createReleaseGroups graph [] targetName =
      ⟨some (CreateReleaseGroupsError.PROJECTS_MISSING_TARGET
        (missingTargetProjects graph [] targetName) targetName), []⟩ := by
  have hne : graph.nodes ≠ [] := by
    intro h
    exact hmiss (by simp [missingTargetProjects, allMatchedProjects_empty, h])
  rw [createReleaseGroups_empty_config graph targetName hnd hne]
  have hfalse : (missingTargetProjects graph [] targetName).isEmpty = false := by
    cases h : missingTargetProjects graph [] targetName with
    | nil => exact absurd h hmiss
    | cons a l => rfl
  simp [hfalse]

/-- Witness for C1 (amended) at the counterexample graph. -/
theorem claim_C1_witness :
    createReleaseGroups graphC1 [] "nx-release-publish" =
      ⟨some (CreateReleaseGroupsError.PROJECTS_MISSING_TARGET
        (missingTargetProjects graphC1 [] "nx-release-publish") "nx-release-publish"), []⟩ :=
  claim_C1_empty_config_missing_target graphC1 "nx-release-publish" (by decide) (by decide)

/-- C5: with no release groups configured and every project carrying the
required capability, the resolver returns no error and exactly one
catch-all group containing all projects in first-seen order, with the
generator defaulted to the canonical identifier and the specifier source
defaulted to the prompt (interactive) source. -/
theorem claim_C5_catch_all_success
    (graph : ProjectGraph) (targetName : String)
    (hnd : (graph.nodes.map (fun n => n.name)).Nodup)
    (hne : graph.nodes ≠ [])
    (hall : ∀ n ∈ graph.nodes, targetName ∈ n.targets) :
    createReleaseGroups graph [] targetName =
      ⟨none, [⟨CATCH_ALL_RELEASE_GROUP, graph.nodes.map (fun n => n.name),
        ⟨DEFAULT_GENERATOR, [], "prompt"⟩⟩]⟩ := by
  have hmiss : missingTargetProjects graph [] targetName = [] := by
    unfold missingTargetProjects
    rw [allMatchedProjects_empty]
    rw [List.filter_eq_nil_iff]
    intro p hp
    simp only [List.mem_map] at hp
    obtain ⟨n, hn, rfl⟩ := hp
    have htgt : projectHasTarget graph n.name targetName = true := by
      unfold projectHasTarget
      rw [List.any_eq_true]
      exact ⟨n, hn, by simp [hall n hn]⟩
    simp [htgt]
  rw [createReleaseGroups_empty_config graph targetName hnd hne, hmiss]
  rfl

/-- Witness for C5 at the test suite's three-project graph. -/
theorem claim_C5_witness :
    createReleaseGroups graphABC [] "nx-release-publish" =
      ⟨none, [⟨CATCH_ALL_RELEASE_GROUP, graphABC.nodes.map (fun n => n.name),
        ⟨DEFAULT_GENERATOR, [], "prompt"⟩⟩]⟩ :=
  claim_C5_catch_all_success graphABC "nx-release-publish" (by decide) (by decide)
    (by decide)

/-- C6: whenever the left-to-right scan over the groups' resolved member
lists (concatenated in configuration iteration order) finds a project
already matched by an earlier position — i.e. some project resolves into
more than one group, and this is the first offending project in
deterministic configuration order — the resolver returns exactly the
`PROJECT_MATCHES_MULTIPLE_GROUPS` error carrying that project, returns no
release groups, and that project indeed occurs at least twice among the
matched projects. -/
theorem claim_C6_project_matches_multiple_groups
    (graph : ProjectGraph) (configs : List (String × GroupConfig))
    (targetName p : String)
    (hdup : firstDuplicate [] (allMatchedProjects graph configs) = some p) :
    createReleaseGroups graph configs targetName =
      ⟨some (CreateReleaseGroupsError.PROJECT_MATCHES_MULTIPLE_GROUPS p), []⟩ ∧
    2 ≤ (allMatchedProjects graph configs).count p := by
  constructor
  · unfold createReleaseGroups
    rw [hdup]
  · have h := firstDuplicate_count (allMatchedProjects graph configs) [] p hdup
    simpa using h

/-- Witness for C6 at the test suite's overlapping configuration: two
groups both listing `lib-a`. -/
theorem claim_C6_witness :
    createReleaseGroups graphABC
      [("group-1", ⟨ProjectsSelector.explicitList ["lib-a"], none⟩),
       ("group-2", ⟨ProjectsSelector.explicitList ["lib-a"], none⟩)]
      "nx-release-publish" =
      ⟨some (CreateReleaseGroupsError.PROJECT_MATCHES_MULTIPLE_GROUPS "lib-a"), []⟩ ∧
    2 ≤ (allMatchedProjects graphABC
      [("group-1", ⟨ProjectsSelector.explicitList ["lib-a"], none⟩),
       ("group-2", ⟨ProjectsSelector.explicitList ["lib-a"], none⟩)]).count "lib-a" :=
  claim_C6_project_matches_multiple_groups graphABC
    [("group-1", ⟨ProjectsSelector.explicitList ["lib-a"], none⟩),
     ("group-2", ⟨ProjectsSelector.explicitList ["lib-a"], none⟩)]
    "nx-release-publish" "lib-a" (by decide)

/-- JavaScript truthiness of an optional string: `undefined` and the
empty string are falsy. -/
def jsStrTruthy : Option String → Bool
  | none => false
  | some s => ! s.isEmpty

/-- Character-level scan underlying `jsReplaceFirst`: replace the first
occurrence of `pat` in the scanned list by `repl`. -/
def jsReplaceFirstAux (pat repl : List Char) : List Char → List Char
  | [] => if pat = [] then repl else []
  | c :: rest =>
    if pat.isPrefixOf (c :: rest) then repl ++ (c :: rest).drop pat.length
    else c :: jsReplaceFirstAux pat repl rest

/-- JavaScript `String.replace` with a plain string pattern: replaces the
first occurrence only, the rest of the string is unchanged. -/
def jsReplaceFirst (s pat repl : String) : String :=
  String.mk (jsReplaceFirstAux pat.data repl.data s.data)

/-- Error regime of the specifier resolution engine: a failed tag lookup
(propagated rejection of the awaited promise), a cancelled prompt
(process exit), or an invalid `specifierSource` (thrown error). -/
inductive SpecifierError where
  | gitTagLookupFailed (message : String)
  | promptCancelled
  | invalidSpecifierSource (specifierSource : String)
deriving DecidableEq

/-- External collaborators of the specifier resolution engine, abstracted
as oracle functions: the last-matching-tag lookup, the semver prerelease
test of the external semver library, the conventional-commit
classification of the history since a tag, and the interactive prompt. -/
structure SpecifierEnv where
  lastGitTag : String → Except String String
  isPrereleaseVersion : String → Bool
  conventionalCommitsSpecifier : String → String
  promptSpecifier : Except Unit String

/-- Modelled from the spec: `getLastGitTag` — the git utility module is
absent from the excerpt, only its caller is present. It is the "most
recent tag matching glob" lookup; per the spec, the absence of any
matching tag is a first-release condition surfaced as a rejection of the
returned promise, never a silent empty result. -/
def getLastGitTag (env : SpecifierEnv) (matcher : String) : Except String String :=
  env.lastGitTag matcher

/-- The `tagVersionPrefix` metadata read by the conventional-commits
branch (an optional user override of the tag glob), looked up from the
encoded generator-options bag. -/
def metadataTagVersionPfx (version : ResolvedVersion) : Option String :=
  (version.generatorOptions.find?
    (fun kv => kv.1 == "currentVersionResolverMetadata.tagVersionPfx")).map
    (fun kv => kv.2)

/-- Embedding of `resolveSemverSpecifier`: a truthy CLI specifier wins
outright; otherwise the group's `specifierSource` selects either the
conventional-commits flow (tag lookup, prerelease short-circuit,
classification of the commits since the tag) or the interactive prompt;
any other source is a fatal configuration error. -/
def resolveSemverSpecifier (cliArgSpecifier : Option String)
    (releaseGroup : ReleaseGroup) (env : SpecifierEnv) :
    Except SpecifierError String :=
  if jsStrTruthy cliArgSpecifier then Except.ok (cliArgSpecifier.getD "")
  else if releaseGroup.version.specifierSource = "conventional-commits" then
    let tagVersionPfx := jsOrStr (metadataTagVersionPfx releaseGroup.version) "v"
    match getLastGitTag env (tagVersionPfx ++ "*.*.*") with
    | Except.error e => Except.error (SpecifierError.gitTagLookupFailed e)
    | Except.ok currentVersionTag =>
      let currentVersion := jsReplaceFirst currentVersionTag tagVersionPfx ""
      if env.isPrereleaseVersion currentVersion then Except.ok "prerelease"
      else Except.ok (env.conventionalCommitsSpecifier currentVersionTag)
  else if releaseGroup.version.specifierSource = "prompt" then
    match env.promptSpecifier with
    | Except.ok s => Except.ok s
    | Except.error _ => Except.error SpecifierError.promptCancelled
  else
    Except.error (SpecifierError.invalidSpecifierSource releaseGroup.version.specifierSource)

/-- C4: with no truthy CLI specifier and a conventional-commits specifier
source, if the version encoded in the most recent matching tag is a
prerelease, the resolved specifier is `prerelease` — for every
environment, hence regardless of the content (and classification) of the
commits since that tag. -/
theorem claim_C4_prerelease_short_circuit
    (cliArgSpecifier : Option String) (releaseGroup : ReleaseGroup)
    (env : SpecifierEnv) (tag : String)
    (hcli : jsStrTruthy cliArgSpecifier = false)
    (hsrc : releaseGroup.version.specifierSource = "conventional-commits")
    (htag : env.lastGitTag
      (jsOrStr (metadataTagVersionPfx releaseGroup.version) "v" ++ "*.*.*")
      = Except.ok tag)
    (hpre : env.isPrereleaseVersion
      (jsReplaceFirst tag (jsOrStr (metadataTagVersionPfx releaseGroup.version) "v") "")
      = true) :
    resolveSemverSpecifier cliArgSpecifier releaseGroup env = Except.ok "prerelease" := by
  simp [resolveSemverSpecifier, getLastGitTag, hcli, hsrc, htag, hpre]

/-- Witness for C4: the last tag is `v1.2.3-beta.1` and the commit
classification oracle would answer `major`, yet the result is
`prerelease`. -/
theorem claim_C4_witness :
    resolveSemverSpecifier none
      ⟨"__default__", ["lib-a"], ⟨DEFAULT_GENERATOR, [], "conventional-commits"⟩⟩
      ⟨fun _ => Except.ok "v1.2.3-beta.1",
       fun v => v = "1.2.3-beta.1",
       fun _ => "major",
       Except.ok "patch"⟩ = Except.ok "prerelease" :=
  claim_C4_prerelease_short_circuit none
    ⟨"__default__", ["lib-a"], ⟨DEFAULT_GENERATOR, [], "conventional-commits"⟩⟩
    ⟨fun _ => Except.ok "v1.2.3-beta.1",
     fun v => v = "1.2.3-beta.1",
     fun _ => "major",
     Except.ok "patch"⟩
    "v1.2.3-beta.1" rfl rfl rfl (by decide)

/-- C7: with no truthy CLI specifier and a conventional-commits specifier
source, if no tag matching the configured glob exists (the lookup
rejects), the failure is propagated as a distinct error outcome; in
particular the resolution never yields the bump decision `none`
(or any other specifier) silently. -/
theorem claim_C7_first_release_surfaced
    (cliArgSpecifier : Option String) (releaseGroup : ReleaseGroup)
    (env : SpecifierEnv) (message : String)
    (hcli : jsStrTruthy cliArgSpecifier = false)
    (hsrc : releaseGroup.version.specifierSource = "conventional-commits")
    (htag : env.lastGitTag
      (jsOrStr (metadataTagVersionPfx releaseGroup.version) "v" ++ "*.*.*")
      = Except.error message) :
    resolveSemverSpecifier cliArgSpecifier releaseGroup env
      = Except.error (SpecifierError.gitTagLookupFailed message) ∧
    ∀ s, resolveSemverSpecifier cliArgSpecifier releaseGroup env ≠ Except.ok s := by
  have h : resolveSemverSpecifier cliArgSpecifier releaseGroup env
      = Except.error (SpecifierError.gitTagLookupFailed message) := by
    simp [resolveSemverSpecifier, getLastGitTag, hcli, hsrc, htag]
  exact ⟨h, fun s hs => by rw [h] at hs; exact Except.noConfusion hs⟩

/-- Witness for C7: a repository with no tags at all surfaces the lookup
failure. -/
theorem claim_C7_witness :
    resolveSemverSpecifier none
      ⟨"__default__", ["lib-a"], ⟨DEFAULT_GENERATOR, [], "conventional-commits"⟩⟩
      ⟨fun _ => Except.error "fatal: No names found, cannot describe anything.",
       fun _ => false,
       fun _ => "none",
       Except.ok "patch"⟩
      = Except.error (SpecifierError.gitTagLookupFailed
          "fatal: No names found, cannot describe anything.") ∧
    ∀ s, resolveSemverSpecifier none
      ⟨"__default__", ["lib-a"], ⟨DEFAULT_GENERATOR, [], "conventional-commits"⟩⟩
      ⟨fun _ => Except.error "fatal: No names found, cannot describe anything.",
       fun _ => false,
       fun _ => "none",
       Except.ok "patch"⟩ ≠ Except.ok s :=
  claim_C7_first_release_surfaced none
    ⟨"__default__", ["lib-a"], ⟨DEFAULT_GENERATOR, [], "conventional-commits"⟩⟩
    ⟨fun _ => Except.error "fatal: No names found, cannot describe anything.",
     fun _ => false,
     fun _ => "none",
     Except.ok "patch"⟩
    "fatal: No names found, cannot describe anything." rfl rfl rfl

/-- JavaScript truthiness of an optional boolean. -/
def jsBoolTruthy : Option Bool → Bool
  | some true => true
  | _ => false

/-- CLI arguments consumed by the top-level `release` handler; the git
toggles are optional caller overrides (which the pipeline forcibly
replaces when invoking the version stage). -/
structure ReleaseArgs where
  yes : Bool
  skipPublish : Bool
  dryRun : Bool
  verbose : Bool
  gitCommit : Option Bool
  gitTag : Option Bool
  stageChanges : Option Bool
deriving DecidableEq

/-- The granular `release.version` user configuration block, reduced to
what the handler reads: the key list of its `git` object, when present. -/
structure VersionUserConfig where
  git : Option (List String)
deriving DecidableEq

/-- The granular `release.changelog` user configuration block, reduced to
the key list of its `git` object. -/
structure ChangelogUserConfig where
  git : Option (List String)
deriving DecidableEq

/-- The `release` block of the workspace configuration file, reduced to
what the top-level handler reads directly. -/
structure ReleaseUserConfig where
  version : Option VersionUserConfig
  changelog : Option ChangelogUserConfig
deriving DecidableEq

/-- The `git` property of the resolved release configuration. -/
structure NxReleaseGitConfig where
  commit : Option Bool
deriving DecidableEq

/-- The resolved release configuration (output of the external
configuration defaulting step), reduced to what the handler reads. -/
structure NxReleaseConfig where
  git : Option NxReleaseGitConfig
deriving DecidableEq

/-- The three overridden keys of the version-stage invocation payload
(the remaining CLI arguments are spread through unchanged). -/
structure VersionStageArgs where
  stageChanges : Option Bool
  gitCommit : Bool
  gitTag : Bool
deriving DecidableEq

/-- The pipeline stages the handler can invoke. -/
inductive ReleaseStage where
  | version
  | changelog
  | publish
deriving DecidableEq

/-- Observable behaviour of one `release` handler invocation. -/
structure ReleaseRun where
  exitCode : Option Nat
  granularGitErrorPath : Option (List String)
  configErrorHandled : Bool
  stagesInvoked : List ReleaseStage
  versionStageArgs : Option VersionStageArgs
  prompted : Bool
  published : Bool
  logs : List String
deriving DecidableEq

/-- Embedding of the top-level `release` handler: reject granular
`release.version.git` / `release.changelog.git` configuration with a
non-zero exit before any stage; hand a configuration error to its
handler; otherwise run the version stage with commit and tag forced off
and staging tied to the resolved `release.git.commit` flag, run the
changelog stage, then gate publishing on the yes flag, the skip flag,
dry-run, and the interactive confirmation. The external collaborators
(project graph, configuration defaulting — `createNxReleaseConfig` is
absent from the excerpt — the stage implementations and the prompt) are
abstracted as inputs and recorded events. -/
def release (args : ReleaseArgs) (userConfig : Option ReleaseUserConfig)
    (configResult : Option NxReleaseConfig) (promptAnswer : Bool) : ReleaseRun :=
  let versionGitKeys :=
    ((userConfig.bind (fun r => r.version)).bind (fun v => v.git)).getD []
  let changelogGitKeys :=
    ((userConfig.bind (fun r => r.changelog)).bind (fun c => c.git)).getD []
  if 0 < versionGitKeys.length ∨ 0 < changelogGitKeys.length then
    { exitCode := some 1
      granularGitErrorPath :=
        some (if 0 < versionGitKeys.length then ["release", "version", "git"]
              else ["release", "changelog", "git"])
      configErrorHandled := false
      stagesInvoked := []
      versionStageArgs := none
      prompted := false
      published := false
      logs := [] }
  else
    match configResult with
    | none =>
      { exitCode := none
        granularGitErrorPath := none
        configErrorHandled := true
        stagesInvoked := []
        versionStageArgs := none
        prompted := false
        published := false
        logs := [] }
    | some nxReleaseConfig =>
      let versionArgs : VersionStageArgs :=
        { stageChanges := nxReleaseConfig.git.bind (fun g => g.commit)
          gitCommit := false
          gitTag := false }
      let shouldPublishFlag := args.yes && ! args.skipPublish
      let shouldPromptPublishing := ! args.yes && ! args.skipPublish && ! args.dryRun
      let shouldPublish := if shouldPromptPublishing then promptAnswer else shouldPublishFlag
      { exitCode := none
        granularGitErrorPath := none
        configErrorHandled := false
        stagesInvoked := [ReleaseStage.version, ReleaseStage.changelog]
          ++ (if shouldPublish then [ReleaseStage.publish] else [])
        versionStageArgs := some versionArgs
        prompted := shouldPromptPublishing
        published := shouldPublish
        logs := if shouldPublish then [] else ["Skipped publishing packages."] }

/-- C8: absent granular git configuration and with a valid resolved
configuration, the publish stage runs exactly when either the yes flag is
set and the skip flag is not, or neither flag applies, dry-run is off,
and the interactive confirmation answers yes; the prompt is shown exactly
in that last situation, and whenever publishing does not happen a skip
message is logged. -/
theorem claim_C8_publish_gating
    (args : ReleaseArgs) (userConfig : Option ReleaseUserConfig)
    (cfg : NxReleaseConfig) (promptAnswer : Bool)
    (hv : ((userConfig.bind (fun r => r.version)).bind (fun v => v.git)).getD [] = [])
    (hc : ((userConfig.bind (fun r => r.changelog)).bind (fun c => c.git)).getD [] = []) :
    (release args userConfig (some cfg) promptAnswer).published
      = (args.yes && ! args.skipPublish
         || (! args.yes && ! args.skipPublish && ! args.dryRun && promptAnswer)) ∧
    (release args userConfig (some cfg) promptAnswer).prompted
      = (! args.yes && ! args.skipPublish && ! args.dryRun) ∧
    ((release args userConfig (some cfg) promptAnswer).published = false →
      "Skipped publishing packages."
        ∈ (release args userConfig (some cfg) promptAnswer).logs) ∧
    (ReleaseStage.publish ∈ (release args userConfig (some cfg) promptAnswer).stagesInvoked
      ↔ (release args userConfig (some cfg) promptAnswer).published = true) := by
  cases hy : args.yes <;> cases hs : args.skipPublish <;> cases hd : args.dryRun <;>
    cases promptAnswer <;>
      simp [release, hv, hc, hy, hs, hd]

/-- Witness for C8: dry-run without the yes flag skips publishing with
the logged message even though the prompt would have answered yes. -/
theorem claim_C8_witness :
    (release ⟨false, false, true, false, none, none, none⟩ none
      (some ⟨none⟩) true).published
      = (false && ! false || (! false && ! false && ! true && true)) ∧
    (release ⟨false, false, true, false, none, none, none⟩ none
      (some ⟨none⟩) true).prompted = (! false && ! false && ! true) ∧
    ((release ⟨false, false, true, false, none, none, none⟩ none
      (some ⟨none⟩) true).published = false →
      "Skipped publishing packages."
        ∈ (release ⟨false, false, true, false, none, none, none⟩ none
          (some ⟨none⟩) true).logs) ∧
    (ReleaseStage.publish
        ∈ (release ⟨false, false, true, false, none, none, none⟩ none
          (some ⟨none⟩) true).stagesInvoked
      ↔ (release ⟨false, false, true, false, none, none, none⟩ none
          (some ⟨none⟩) true).published = true) :=
  claim_C8_publish_gating ⟨false, false, true, false, none, none, none⟩ none
    ⟨none⟩ true rfl rfl

/-- C9: absent granular git configuration and with a valid resolved
configuration, the version stage is always invoked with git commit and
git tag forced to `false` — whatever the caller's own git toggles were —
and with staging set to the resolved `release.git.commit` flag, which is
truthy exactly when that flag is set to `true`. -/
theorem claim_C9_version_stage_git_disabled
    (args : ReleaseArgs) (userConfig : Option ReleaseUserConfig)
    (cfg : NxReleaseConfig) (promptAnswer : Bool)
    (hv : ((userConfig.bind (fun r => r.version)).bind (fun v => v.git)).getD [] = [])
    (hc : ((userConfig.bind (fun r => r.changelog)).bind (fun c => c.git)).getD [] = []) :
    (release args userConfig (some cfg) promptAnswer).versionStageArgs
      = some ⟨cfg.git.bind (fun g => g.commit), false, false⟩ ∧
    ReleaseStage.version
      ∈ (release args userConfig (some cfg) promptAnswer).stagesInvoked ∧
    (jsBoolTruthy (cfg.git.bind (fun g => g.commit)) = true
      ↔ cfg.git.bind (fun g => g.commit) = some true) := by
  refine ⟨?_, ?_, ?_⟩
  · simp [release, hv, hc]
  · simp [release, hv, hc]
  · cases hgit : cfg.git.bind (fun g => g.commit) with
    | none => simp [jsBoolTruthy]
    | some b => cases b <;> simp [jsBoolTruthy]

/-- Witness for C9: the caller explicitly requests commit and tag, and
`release.git.commit` is `true`; the version stage still receives
`gitCommit = false`, `gitTag = false` and staging enabled. -/
theorem claim_C9_witness :
    (release ⟨true, false, false, false, some true, some true, some false⟩ none
      (some ⟨some ⟨some true⟩⟩) false).versionStageArgs
      = some ⟨(some ⟨some true⟩ : Option NxReleaseGitConfig).bind (fun g => g.commit),
          false, false⟩ ∧
    ReleaseStage.version
      ∈ (release ⟨true, false, false, false, some true, some true, some false⟩ none
        (some ⟨some ⟨some true⟩⟩) false).stagesInvoked ∧
    (jsBoolTruthy ((some ⟨some true⟩ : Option NxReleaseGitConfig).bind (fun g => g.commit)) = true
      ↔ (some ⟨some true⟩ : Option NxReleaseGitConfig).bind (fun g => g.commit) = some true) :=
  claim_C9_version_stage_git_disabled
    ⟨true, false, false, false, some true, some true, some false⟩ none
    ⟨some ⟨some true⟩⟩ false rfl rfl

/-- C10: when any granular git configuration is present under
`release.version.git` or `release.changelog.git`, the handler exits with
code 1 reporting the offending configuration path (the version path
taking precedence) before invoking any pipeline stage. -/
theorem claim_C10_granular_git_config_rejected
    (args : ReleaseArgs) (userConfig : Option ReleaseUserConfig)
    (configResult : Option NxReleaseConfig) (promptAnswer : Bool)
    (hgran : ((userConfig.bind (fun r => r.version)).bind (fun v => v.git)).getD [] ≠ []
      ∨ ((userConfig.bind (fun r => r.changelog)).bind (fun c => c.git)).getD [] ≠ []) :
    (release args userConfig configResult promptAnswer).exitCode = some 1 ∧
    (release args userConfig configResult promptAnswer).stagesInvoked = [] ∧
    (release args userConfig configResult promptAnswer).versionStageArgs = none ∧
    (release args userConfig configResult promptAnswer).published = false ∧
    (release args userConfig configResult promptAnswer).granularGitErrorPath
      = some (if ((userConfig.bind (fun r => r.version)).bind (fun v => v.git)).getD [] ≠ []
          then ["release", "version", "git"] else ["release", "changelog", "git"]) := by
  have hcond :
      0 < (((userConfig.bind (fun r => r.version)).bind (fun v => v.git)).getD []).length
      ∨ 0 < (((userConfig.bind (fun r => r.changelog)).bind (fun c => c.git)).getD []).length := by
    rcases hgran with h | h
    · exact Or.inl (List.length_pos.mpr h)
    · exact Or.inr (List.length_pos.mpr h)
  by_cases hvk : ((userConfig.bind (fun r => r.version)).bind (fun v => v.git)).getD [] = []
  · have hck : ((userConfig.bind (fun r => r.changelog)).bind (fun c => c.git)).getD [] ≠ [] :=
      hgran.resolve_left (fun h => h hvk)
    simp [release, hvk, hck, List.length_pos.mpr hck]
  · simp [release, List.length_pos.mpr hvk, hvk]

/-- Witness for C10: a workspace configuration carrying
`release.changelog.git.commit` is rejected with exit code 1 naming the
changelog path, with no stage invoked. -/
theorem claim_C10_witness :
    (release ⟨false, false, false, false, none, none, none⟩
      (some ⟨none, some ⟨some ["commit"]⟩⟩) (some ⟨none⟩) false).exitCode = some 1 ∧
    (release ⟨false, false, false, false, none, none, none⟩
      (some ⟨none, some ⟨some ["commit"]⟩⟩) (some ⟨none⟩) false).stagesInvoked = [] ∧
    (release ⟨false, false, false, false, none, none, none⟩
      (some ⟨none, some ⟨some ["commit"]⟩⟩) (some ⟨none⟩) false).versionStageArgs = none ∧
    (release ⟨false, false, false, false, none, none, none⟩
      (some ⟨none, some ⟨some ["commit"]⟩⟩) (some ⟨none⟩) false).published = false ∧
    (release ⟨false, false, false, false, none, none, none⟩
      (some ⟨none, some ⟨some ["commit"]⟩⟩) (some ⟨none⟩) false).granularGitErrorPath
      = some (if (((some ⟨none, some ⟨some ["commit"]⟩⟩ : Option ReleaseUserConfig).bind
            (fun r => r.version)).bind (fun v => v.git)).getD [] ≠ []
          then ["release", "version", "git"] else ["release", "changelog", "git"]) :=
  claim_C10_granular_git_config_rejected
    ⟨false, false, false, false, none, none, none⟩
    (some ⟨none, some ⟨some ["commit"]⟩⟩) (some ⟨none⟩) false
    (Or.inr (by decide))

end NxRelease
